import Mathlib

/-!
Verification of the typed request/response envelope layer of the
`gemini-cancer` crate (files `dto_content.rs`, `dto_request.rs`,
`dto_response.rs`), against its natural-language specification.

Modelling conventions:
* serde's JSON data model is embedded as the inductive `Gemini.Json`.
  JSON numbers are modelled as integers; no claim exercises fractional
  numbers (the only numeric wire fields touched by the claims carry
  integer values such as `age: 30`).
* `serde_json::to_string::<T>` / `serde_json::from_str::<T>` for a Rust
  type parameter `T` are modelled by a `Gemini.Serde` bundle carrying the
  two string-level functions together with `stringEquiv`, which is `some`
  exactly when `TypeId::of::<T>() == TypeId::of::<String>()` (the runtime
  type-identity check of `JsonString`'s impls and of
  `GenerationConfigBuilder::build`); the equivalence models the unchecked
  in-memory reinterpretation `T ↔ String` performed in that branch.
* `f32` payloads are modelled as opaquely carried integer tokens
  (`Gemini.F32`); the code only stores and moves these values and no
  claim performs floating-point arithmetic.
* Both schema cargo features (`openapi` and `json`) are taken as enabled,
  so `build` checks `response_schema.is_some() || response_json_schema.is_some()`.
-/

namespace Gemini

/-- The serde-JSON data model (`serde_json::Value`): null, booleans,
numbers (integral), strings, arrays, and objects as ordered field lists. -/
inductive Json where
  | null
  | bool (b : Bool)
  | num (n : Int)
  | str (s : String)
  | arr (items : List Json)
  | obj (fields : List (String × Json))

/-- Top-level keys of a JSON object (empty for non-objects). -/
def Json.keys : Json → List String
  | .obj fields => fields.map Prod.fst
  | _ => []

/-- Escape one character the way `serde_json` does when emitting a JSON
string: quote, backslash and control characters are escaped, everything
else passes through. -/
def jsonEscape (c : Char) : String :=
  if c = '"' then "\\\""
  else if c = '\\' then "\\\\"
  else if c = '\n' then "\\n"
  else if c = '\t' then "\\t"
  else if c = '\r' then "\\r"
  else if c = Char.ofNat 8 then "\\b"
  else if c = Char.ofNat 12 then "\\f"
  else if c.toNat < 32 then
    "\\u00" ++ String.mk [Nat.digitChar (c.toNat / 16), Nat.digitChar (c.toNat % 16)]
  else String.mk [c]

/-- Render a string as a JSON string literal, quotes included. -/
def renderStr (s : String) : String :=
  "\"" ++ (s.data.map jsonEscape).foldl (· ++ ·) "" ++ "\""

mutual
/-- Compact rendering of a JSON value, as `serde_json::to_string` emits it
(no whitespace, fields in order). -/
def Json.render : Json → String
  | .null => "null"
  | .bool true => "true"
  | .bool false => "false"
  | .num n => toString n
  | .str s => renderStr s
  | .arr items => "[" ++ Json.renderItems items ++ "]"
  | .obj fields => "\x7b" ++ Json.renderFields fields ++ "\x7d"

/-- Comma-separated rendering of array elements. -/
def Json.renderItems : List Json → String
  | [] => ""
  | [j] => j.render
  | j :: rest => j.render ++ "," ++ Json.renderItems rest

/-- Comma-separated rendering of object members. -/
def Json.renderFields : List (String × Json) → String
  | [] => ""
  | [(k, v)] => renderStr k ++ ":" ++ v.render
  | (k, v) :: rest => renderStr k ++ ":" ++ v.render ++ "," ++ Json.renderFields rest
end

/-- Whitespace per the JSON grammar. -/
def jsonWs (c : Char) : Bool :=
  c = ' ' || c = '\n' || c = '\t' || c = '\r'

/-- Drop leading JSON whitespace. -/
def dropWs : List Char → List Char
  | [] => []
  | c :: cs => if jsonWs c then dropWs cs else c :: cs

/-- Decimal digit test. -/
def isDig (c : Char) : Bool := '0' ≤ c && c ≤ '9'

/-- Split off a maximal run of decimal digits. -/
def spanDigits : List Char → List Char × List Char
  | [] => ([], [])
  | c :: cs =>
    if isDig c then
      let (ds, rest) := spanDigits cs
      (c :: ds, rest)
    else ([], c :: cs)

/-- Numeric value of a digit run. -/
def digitsVal (ds : List Char) : Nat :=
  ds.foldl (fun acc c => acc * 10 + (c.toNat - 48)) 0

/-- Value of one hexadecimal digit, if it is one. -/
def hexDigitVal (c : Char) : Option Nat :=
  if '0' ≤ c && c ≤ '9' then some (c.toNat - 48)
  else if 'a' ≤ c && c ≤ 'f' then some (c.toNat - 87)
  else if 'A' ≤ c && c ≤ 'F' then some (c.toNat - 55)
  else none

/-- Resolve a single-character JSON escape. -/
def simpleEscape (c : Char) : Option Char :=
  if c = '"' then some '"'
  else if c = '\\' then some '\\'
  else if c = '/' then some '/'
  else if c = 'n' then some '\n'
  else if c = 't' then some '\t'
  else if c = 'r' then some '\r'
  else if c = 'b' then some (Char.ofNat 8)
  else if c = 'f' then some (Char.ofNat 12)
  else none

/-- Read the body of a JSON string literal after its opening quote,
returning the decoded string and the input past the closing quote. -/
def readStrBody : List Char → Except String (String × List Char)
  | [] => .error "unterminated string"
  | '"' :: rest => .ok ("", rest)
  | '\\' :: 'u' :: a :: b :: c :: d :: rest => do
    match hexDigitVal a, hexDigitVal b, hexDigitVal c, hexDigitVal d with
    | some va, some vb, some vc, some vd =>
      let (s, rem) ← readStrBody rest
      .ok (String.mk [Char.ofNat (((va * 16 + vb) * 16 + vc) * 16 + vd)] ++ s, rem)
    | _, _, _, _ => .error "bad unicode escape"
  | '\\' :: e :: rest => do
    match simpleEscape e with
    | some ch =>
      let (s, rem) ← readStrBody rest
      .ok (String.mk [ch] ++ s, rem)
    | none => .error "bad escape"
  | c :: rest => do
    let (s, rem) ← readStrBody rest
    .ok (String.mk [c] ++ s, rem)

/-- The opening brace character of a JSON object. -/
def braceOpen : Char := Char.ofNat 123

/-- The closing brace character of a JSON object. -/
def braceClose : Char := Char.ofNat 125

mutual
/-- Read one JSON value from the input. Recursion is on the `fuel`
counter, which the top-level entry point sizes from the input so that it
never runs out on well-formed texts. -/
def readVal (fuel : Nat) (input : List Char) : Except String (Json × List Char) :=
  match fuel with
  | 0 => .error "input too deeply nested"
  | fuel + 1 =>
    match dropWs input with
    | [] => .error "unexpected end of input"
    | 'n' :: 'u' :: 'l' :: 'l' :: rest => .ok (.null, rest)
    | 't' :: 'r' :: 'u' :: 'e' :: rest => .ok (.bool true, rest)
    | 'f' :: 'a' :: 'l' :: 's' :: 'e' :: rest => .ok (.bool false, rest)
    | '"' :: rest => do
      let (s, rem) ← readStrBody rest
      .ok (.str s, rem)
    | '[' :: rest =>
      (match dropWs rest with
      | ']' :: rem => .ok (.arr [], rem)
      | other => do
        let (items, rem) ← readItems fuel other
        .ok (.arr items, rem))
    | '-' :: rest =>
      (match spanDigits rest with
      | ([], _) => .error "expected digits after minus sign"
      | (ds, rem) => .ok (.num (-(digitsVal ds : Int)), rem))
    | c :: rest =>
      if c = braceOpen then
        match dropWs rest with
        | d :: rem =>
          if d = braceClose then .ok (.obj [], rem)
          else do
            let (fields, rem2) ← readFields fuel (d :: rem)
            .ok (.obj fields, rem2)
        | [] => .error "unterminated object"
      else if isDig c then
        match spanDigits (c :: rest) with
        | (ds, rem) => .ok (.num (digitsVal ds : Int), rem)
      else .error "unexpected character"

/-- Read one or more comma-separated array elements and the closing
bracket (the empty array is handled by `readVal`). -/
def readItems (fuel : Nat) (input : List Char) : Except String (List Json × List Char) :=
  match fuel with
  | 0 => .error "input too deeply nested"
  | fuel + 1 => do
    let (j, rest) ← readVal fuel input
    match dropWs rest with
    | ',' :: rest2 => do
      let (items, rem) ← readItems fuel rest2
      .ok (j :: items, rem)
    | ']' :: rem => .ok ([j], rem)
    | _ => .error "expected comma or closing bracket"

/-- Read one or more comma-separated object members and the closing brace
(the empty object is handled by `readVal`). -/
def readFields (fuel : Nat) (input : List Char) : Except String (List (String × Json) × List Char) :=
  match fuel with
  | 0 => .error "input too deeply nested"
  | fuel + 1 =>
    match dropWs input with
    | '"' :: rest => do
      let (key, rest1) ← readStrBody rest
      match dropWs rest1 with
      | ':' :: rest2 => do
        let (v, rest3) ← readVal fuel rest2
        match dropWs rest3 with
        | ',' :: rest4 => do
          let (fields, rem) ← readFields fuel rest4
          .ok ((key, v) :: fields, rem)
        | d :: rem =>
          if d = braceClose then .ok ([(key, v)], rem)
          else .error "expected comma or closing brace"
        | [] => .error "unterminated object"
      | _ => .error "expected colon"
    | _ => .error "expected object key"
end

/-- Parse a whole JSON text, as `serde_json::from_str::<Value>` does:
one value, possibly surrounded by whitespace, and nothing after it. -/
def Json.parse (s : String) : Except String Json := do
  let (j, rest) ← readVal (2 * s.length + 2) s.data
  match dropWs rest with
  | [] => .ok j
  | _ => .error "trailing characters"

/-- Embedding of a Rust type parameter `T` together with its serde
instances, at the string level used by `JsonString`'s impls:
`toStr` is `serde_json::to_string::<T>` (fallible), `fromStr` is
`serde_json::from_str::<T>`, and `stringEquiv` is `some` exactly when
`TypeId::of::<T>() == TypeId::of::<String>()`, the equivalence standing
for the unchecked in-memory reinterpretation between `T` and `String`
performed in that branch. -/
structure Serde (α : Type) where
  toStr : α → Except String String
  fromStr : String → Except String α
  stringEquiv : Option (α ≃ String)

/-- A type is round-trip-serializable when serializing any value and
deserializing the result restores the value (spec: `decode(encode(v)) == v`
for every serializable `T`). -/
def Serde.RoundTrip (sd : Serde α) : Prop :=
  ∀ v : α, (sd.toStr v >>= sd.fromStr) = .ok v

/-- The `JsonString<T>` wrapper from `dto_content.rs`: a JSON value
stored as a string. -/
structure JsonString (α : Type) where
  inner : α

/-- `JsonString::new`. -/
def JsonString.new (inner : α) : JsonString α := ⟨inner⟩

/-- `JsonString::into_inner`. -/
def JsonString.into_inner (x : JsonString α) : α := x.inner

/-- `impl Serialize for JsonString<T>`: when `T` is `String` the inner
string is emitted directly as a JSON string (no extra encoding layer);
otherwise the inner value is JSON-encoded with `serde_json::to_string`
and that text is emitted as a single JSON string. -/
def JsonString.serialize (sd : Serde α) (x : JsonString α) : Except String Json :=
  match sd.stringEquiv with
  | some e => .ok (.str (e x.inner))
  | none =>
    match sd.toStr x.inner with
    | .error msg => .error msg
    | .ok text => .ok (.str text)

/-- `impl Deserialize for JsonString<T>`: first read a JSON string from
the wire (`String::deserialize`); when `T` is `String` that string is the
value, otherwise its contents are parsed with `serde_json::from_str`. -/
def JsonString.deserialize (sd : Serde α) : Json → Except String (JsonString α)
  | .str s =>
    match sd.stringEquiv with
    | some e => .ok ⟨e.symm s⟩
    | none =>
      match sd.fromStr s with
      | .error msg => .error msg
      | .ok v => .ok ⟨v⟩
  | _ => .error "invalid type: expected a string"

/-- Rust `f32` payloads, carried opaquely (stored and moved, never
computed with) by the structures under verification. -/
abbrev F32 := Int

/-- The `MimeType` enum of `dto_request.rs`. -/
inductive MimeType where
  | ImagePng | ImageJpeg | ImageWebp | ImageHeic | ImageHeif
  | AudioWav | AudioMp3 | AudioMpeg | AudioAiff | AudioAac | AudioOgg | AudioFlac
  | VideoMp4 | VideoMpeg | VideoMov | VideoAvi | VideoFlv | VideoMpg
  | VideoWebm | VideoWmv | Video3gpp
  | ApplicationPdf | TextPlain | TextHtml | TextCss | TextJavascript
  | ApplicationJavascript | TextTypescript | ApplicationTypescript
  | TextCsv | TextMarkdown | TextPython | ApplicationPythonCode
  | ApplicationJson | TextXml | ApplicationRtf | TextRtf
deriving DecidableEq

/-- The `#[serde(rename = ...)]` wire string of each `MimeType` variant. -/
def MimeType.wireName : MimeType → String
  | .ImagePng => "image/png"
  | .ImageJpeg => "image/jpeg"
  | .ImageWebp => "image/webp"
  | .ImageHeic => "image/heic"
  | .ImageHeif => "image/heif"
  | .AudioWav => "audio/wav"
  | .AudioMp3 => "audio/mp3"
  | .AudioMpeg => "audio/mpeg"
  | .AudioAiff => "audio/aiff"
  | .AudioAac => "audio/aac"
  | .AudioOgg => "audio/ogg"
  | .AudioFlac => "audio/flac"
  | .VideoMp4 => "video/mp4"
  | .VideoMpeg => "video/mpeg"
  | .VideoMov => "video/mov"
  | .VideoAvi => "video/avi"
  | .VideoFlv => "video/x-flv"
  | .VideoMpg => "video/mpg"
  | .VideoWebm => "video/webm"
  | .VideoWmv => "video/wmv"
  | .Video3gpp => "video/3gpp"
  | .ApplicationPdf => "application/pdf"
  | .TextPlain => "text/plain"
  | .TextHtml => "text/html"
  | .TextCss => "text/css"
  | .TextJavascript => "text/javascript"
  | .ApplicationJavascript => "application/x-javascript"
  | .TextTypescript => "text/x-typescript"
  | .ApplicationTypescript => "application/x-typescript"
  | .TextCsv => "text/csv"
  | .TextMarkdown => "text/markdown"
  | .TextPython => "text/x-python"
  | .ApplicationPythonCode => "application/x-python-code"
  | .ApplicationJson => "application/json"
  | .TextXml => "text/xml"
  | .ApplicationRtf => "application/rtf"
  | .TextRtf => "text/rtf"

/-- The list of all `MimeType` variants, used to invert `wireName`. -/
def MimeType.variants : List MimeType :=
  [.ImagePng, .ImageJpeg, .ImageWebp, .ImageHeic, .ImageHeif,
   .AudioWav, .AudioMp3, .AudioMpeg, .AudioAiff, .AudioAac, .AudioOgg, .AudioFlac,
   .VideoMp4, .VideoMpeg, .VideoMov, .VideoAvi, .VideoFlv, .VideoMpg,
   .VideoWebm, .VideoWmv, .Video3gpp,
   .ApplicationPdf, .TextPlain, .TextHtml, .TextCss, .TextJavascript,
   .ApplicationJavascript, .TextTypescript, .ApplicationTypescript,
   .TextCsv, .TextMarkdown, .TextPython, .ApplicationPythonCode,
   .ApplicationJson, .TextXml, .ApplicationRtf, .TextRtf]

/-- Deserialize a `MimeType` from its wire string (serde matches the
rename strings; anything else is an unknown-variant error). -/
def MimeType.deserialize : Json → Except String MimeType
  | .str s =>
    match MimeType.variants.find? (fun m => m.wireName = s) with
    | some m => .ok m
    | none => .error ("unknown variant " ++ s)
  | _ => .error "invalid type: expected a string"

/-- First value bound to a key in a JSON object's field list. -/
def getField (fields : List (String × Json)) (k : String) : Option Json :=
  match fields with
  | [] => none
  | (k', v) :: rest => if k' = k then some v else getField rest k

/-- Serde decoding of a struct field of type `Option<U>`: a missing key
or an explicit `null` gives `None`; any other value must decode as `U`.
Unknown sibling keys are ignored, as derived serde struct impls do. -/
def decOptField (fields : List (String × Json)) (k : String)
    (dec : Json → Except String β) : Except String (Option β) :=
  match getField fields k with
  | none => .ok none
  | some .null => .ok none
  | some j =>
    match dec j with
    | .error msg => .error msg
    | .ok v => .ok (some v)

/-- Serde decoding of a required struct field: a missing key is an error. -/
def decReqField (fields : List (String × Json)) (k : String)
    (dec : Json → Except String β) : Except String β :=
  match getField fields k with
  | none => .error ("missing field " ++ k)
  | some j => dec j

/-- Serde decoding of a `#[serde(default)]` struct field: a missing key
gives the default value. -/
def decDefField (fields : List (String × Json)) (k : String) (dflt : β)
    (dec : Json → Except String β) : Except String β :=
  match getField fields k with
  | none => .ok dflt
  | some j => dec j

/-- Serde decoding of a JSON array element by element, failing the whole
array at the first failing element (seq decoding is fail-fast). -/
def decList (dec : Json → Except String β) : List Json → Except String (List β)
  | [] => .ok []
  | j :: rest =>
    match dec j with
    | .error msg => .error msg
    | .ok v =>
      match decList dec rest with
      | .error msg => .error msg
      | .ok vs => .ok (v :: vs)

/-- Expect a JSON string. -/
def decStr : Json → Except String String
  | .str s => .ok s
  | _ => .error "invalid type: expected a string"

/-- Expect a JSON number (the integers of the model; `i32`/`u32`/`f32`
payloads in the embedded structures all pass through here). -/
def decNum : Json → Except String Int
  | .num n => .ok n
  | _ => .error "invalid type: expected a number"

/-- Expect a JSON boolean. -/
def decBool : Json → Except String Bool
  | .bool b => .ok b
  | _ => .error "invalid type: expected a boolean"

/-- Expect a JSON array. -/
def decArr : Json → Except String (List Json)
  | .arr items => .ok items
  | _ => .error "invalid type: expected an array"

/-- Expect a JSON object's field list. -/
def decObj : Json → Except String (List (String × Json))
  | .obj fields => .ok fields
  | _ => .error "invalid type: expected an object"

/-- Emit one optional struct field, skipped when absent
(`#[serde(skip_serializing_if = "Option::is_none")]`). -/
def optField (k : String) : Option Json → List (String × Json)
  | none => []
  | some j => [(k, j)]

/-- The `Role` enum (`#[serde(rename_all = "lowercase")]`). -/
inductive Role where
  | User
  | Model
deriving DecidableEq

/-- Serialize a `Role` to its lowercase wire string. -/
def Role.serialize : Role → Json
  | .User => .str "user"
  | .Model => .str "model"

/-- Deserialize a `Role` from its lowercase wire string. -/
def Role.deserialize : Json → Except String Role
  | .str "user" => .ok .User
  | .str "model" => .ok .Model
  | _ => .error "unknown role variant"

/-- The `Blob` struct: inline media bytes. -/
structure Blob where
  mime_type : MimeType
  data : String
deriving DecidableEq

/-- Derived serialization of `Blob` (both fields required). -/
def Blob.serialize (b : Blob) : Json :=
  .obj [("mime_type", .str b.mime_type.wireName), ("data", .str b.data)]

/-- Derived deserialization of `Blob`. -/
def Blob.deserialize (j : Json) : Except String Blob := do
  let fields ← decObj j
  let mime_type ← decReqField fields "mime_type" MimeType.deserialize
  let data ← decReqField fields "data" decStr
  .ok ⟨mime_type, data⟩

/-- The `FunctionCall` struct (`args` is an optional `serde_json::Value`). -/
structure FunctionCall where
  name : String
  args : Option Json

/-- Derived serialization of `FunctionCall` (absent `args` omitted). -/
def FunctionCall.serialize (f : FunctionCall) : Json :=
  .obj ([("name", .str f.name)] ++ optField "args" f.args)

/-- Derived deserialization of `FunctionCall`. -/
def FunctionCall.deserialize (j : Json) : Except String FunctionCall := do
  let fields ← decObj j
  let name ← decReqField fields "name" decStr
  let args ← decOptField fields "args" .ok
  .ok ⟨name, args⟩

/-- The `FunctionResponse` struct (`response` is a required value). -/
structure FunctionResponse where
  name : String
  response : Json

/-- Derived serialization of `FunctionResponse`. -/
def FunctionResponse.serialize (f : FunctionResponse) : Json :=
  .obj [("name", .str f.name), ("response", f.response)]

/-- Derived deserialization of `FunctionResponse`. -/
def FunctionResponse.deserialize (j : Json) : Except String FunctionResponse := do
  let fields ← decObj j
  let name ← decReqField fields "name" decStr
  let response ← decReqField fields "response" .ok
  .ok ⟨name, response⟩

/-- The `FileData` struct (`mime_type` optional, `file_uri` required). -/
structure FileData where
  mime_type : Option MimeType
  file_uri : String

/-- Derived serialization of `FileData`. -/
def FileData.serialize (f : FileData) : Json :=
  .obj (optField "mime_type" (f.mime_type.map (fun m => .str m.wireName)) ++
    [("file_uri", .str f.file_uri)])

/-- Derived deserialization of `FileData`. -/
def FileData.deserialize (j : Json) : Except String FileData := do
  let fields ← decObj j
  let mime_type ← decOptField fields "mime_type" MimeType.deserialize
  let file_uri ← decReqField fields "file_uri" decStr
  .ok ⟨mime_type, file_uri⟩

/-- The `ExecutableCode` struct. -/
structure ExecutableCode where
  language : String
  code : String

/-- Derived serialization of `ExecutableCode`. -/
def ExecutableCode.serialize (e : ExecutableCode) : Json :=
  .obj [("language", .str e.language), ("code", .str e.code)]

/-- Derived deserialization of `ExecutableCode`. -/
def ExecutableCode.deserialize (j : Json) : Except String ExecutableCode := do
  let fields ← decObj j
  let language ← decReqField fields "language" decStr
  let code ← decReqField fields "code" decStr
  .ok ⟨language, code⟩

/-- The `CodeExecutionResult` struct (`output` optional). -/
structure CodeExecutionResult where
  outcome : String
  output : Option String

/-- Derived serialization of `CodeExecutionResult`. -/
def CodeExecutionResult.serialize (c : CodeExecutionResult) : Json :=
  .obj ([("outcome", .str c.outcome)] ++ optField "output" (c.output.map .str))

/-- Derived deserialization of `CodeExecutionResult`. -/
def CodeExecutionResult.deserialize (j : Json) : Except String CodeExecutionResult := do
  let fields ← decObj j
  let outcome ← decReqField fields "outcome" decStr
  let output ← decOptField fields "output" decStr
  .ok ⟨outcome, output⟩

/-- The `VideoMetadata` struct (all fields optional; `fps` is `f32`). -/
structure VideoMetadata where
  start_offset : Option String
  end_offset : Option String
  fps : Option F32

/-- Derived serialization of `VideoMetadata`. -/
def VideoMetadata.serialize (v : VideoMetadata) : Json :=
  .obj (optField "start_offset" (v.start_offset.map .str) ++
    optField "end_offset" (v.end_offset.map .str) ++
    optField "fps" (v.fps.map .num))

/-- Derived deserialization of `VideoMetadata`. -/
def VideoMetadata.deserialize (j : Json) : Except String VideoMetadata := do
  let fields ← decObj j
  let start_offset ← decOptField fields "start_offset" decStr
  let end_offset ← decOptField fields "end_offset" decStr
  let fps ← decOptField fields "fps" decNum
  .ok ⟨start_offset, end_offset, fps⟩

/-- The `Part<T>` struct of `dto_content.rs`: each payload slot is
optional and skipped on the wire when absent. Field names carry over from
the Rust declaration (the derive has no `rename_all`). -/
structure Part (α : Type) where
  text : Option (JsonString α)
  inline_data : Option Blob
  function_call : Option FunctionCall
  function_response : Option FunctionResponse
  file_data : Option FileData
  executable_code : Option ExecutableCode
  code_execution_result : Option CodeExecutionResult
  video_metadata : Option VideoMetadata

/-- The non-`text` wire fields of a `Part`, in declaration order, absent
slots omitted. -/
def Part.serializeTail (p : Part α) : List (String × Json) :=
  optField "inline_data" (p.inline_data.map Blob.serialize) ++
  optField "function_call" (p.function_call.map FunctionCall.serialize) ++
  optField "function_response" (p.function_response.map FunctionResponse.serialize) ++
  optField "file_data" (p.file_data.map FileData.serialize) ++
  optField "executable_code" (p.executable_code.map ExecutableCode.serialize) ++
  optField "code_execution_result" (p.code_execution_result.map CodeExecutionResult.serialize) ++
  optField "video_metadata" (p.video_metadata.map VideoMetadata.serialize)

/-- Derived serialization of `Part<T>`: fields in declaration order,
absent slots omitted; the `text` slot goes through
`JsonString::serialize` and its failure fails the part. -/
def Part.serialize (sd : Serde α) (p : Part α) : Except String Json :=
  match p.text with
  | none => .ok (.obj p.serializeTail)
  | some js =>
    match JsonString.serialize sd js with
    | .error msg => .error msg
    | .ok jt => .ok (.obj (("text", jt) :: p.serializeTail))

/-- Derived deserialization of `Part<T>`: every slot is optional; the
`text` slot goes through `JsonString::deserialize`, so its failure fails
the part. -/
def Part.deserialize (sd : Serde α) (j : Json) : Except String (Part α) := do
  let fields ← decObj j
  let text ← decOptField fields "text" (JsonString.deserialize sd)
  let inline_data ← decOptField fields "inline_data" Blob.deserialize
  let function_call ← decOptField fields "function_call" FunctionCall.deserialize
  let function_response ← decOptField fields "function_response" FunctionResponse.deserialize
  let file_data ← decOptField fields "file_data" FileData.deserialize
  let executable_code ← decOptField fields "executable_code" ExecutableCode.deserialize
  let code_execution_result ← decOptField fields "code_execution_result" CodeExecutionResult.deserialize
  let video_metadata ← decOptField fields "video_metadata" VideoMetadata.deserialize
  .ok ⟨text, inline_data, function_call, function_response, file_data,
    executable_code, code_execution_result, video_metadata⟩

/-- `Part::has_text`. -/
def Part.has_text (p : Part α) : Bool := p.text.isSome

/-- `Part::text()`: a view of the text slot's inner value. -/
def Part.getText (p : Part α) : Option α := p.text.map JsonString.inner

/-- `Part::into_text`. -/
def Part.into_text (p : Part α) : Option α := p.text.map JsonString.into_inner

/-- The `Content<T>` struct: an optional role plus the ordered parts. -/
structure Content (α : Type) where
  role : Option Role
  parts : List (Part α)

/-- Serde serialization of a sequence, element by element, failing the
whole sequence at the first failing element. -/
def serList (f : β → Except String Json) : List β → Except String (List Json)
  | [] => .ok []
  | x :: rest =>
    match f x with
    | .error msg => .error msg
    | .ok j =>
      match serList f rest with
      | .error msg => .error msg
      | .ok js => .ok (j :: js)

/-- Derived serialization of `Content<T>` (`role` skipped when absent,
`parts` always emitted). -/
def Content.serialize (sd : Serde α) (c : Content α) : Except String Json :=
  match serList (Part.serialize sd) c.parts with
  | .error msg => .error msg
  | .ok ps => .ok (.obj (optField "role" (c.role.map Role.serialize) ++ [("parts", .arr ps)]))

/-- Derived deserialization of `Content<T>`: `role` optional, `parts`
required, each part decoded in order and fail-fast. -/
def Content.deserialize (sd : Serde α) (j : Json) : Except String (Content α) := do
  let fields ← decObj j
  let role ← decOptField fields "role" Role.deserialize
  let partsJson ← decReqField fields "parts" decArr
  let parts ← decList (Part.deserialize sd) partsJson
  .ok ⟨role, parts⟩

/-- `Content::first_part`. -/
def Content.first_part (c : Content α) : Option (Part α) := c.parts.head?

/-- `Content::first_text`. -/
def Content.first_text (c : Content α) : Option α :=
  c.first_part.bind Part.getText

/-- The `SafetyRating` struct of `dto_request.rs` (`blocked` has
`#[serde(default)]`). -/
structure SafetyRating where
  category : String
  probability : String
  blocked : Bool

/-- Derived serialization of `SafetyRating` (all fields emitted). -/
def SafetyRating.serialize (r : SafetyRating) : Json :=
  .obj [("category", .str r.category), ("probability", .str r.probability),
    ("blocked", .bool r.blocked)]

/-- Derived deserialization of `SafetyRating` (`blocked` defaults to
`false` when missing). -/
def SafetyRating.deserialize (j : Json) : Except String SafetyRating := do
  let fields ← decObj j
  let category ← decReqField fields "category" decStr
  let probability ← decReqField fields "probability" decStr
  let blocked ← decDefField fields "blocked" false decBool
  .ok ⟨category, probability, blocked⟩

/-- The `PromptFeedback` struct of `dto_response.rs`. -/
structure PromptFeedback where
  block_reason : Option String
  safety_ratings : List SafetyRating

/-- Derived deserialization of `PromptFeedback` (`block_reason` optional,
`safety_ratings` defaults to the empty list). -/
def PromptFeedback.deserialize (j : Json) : Except String PromptFeedback := do
  let fields ← decObj j
  let block_reason ← decOptField fields "block_reason" decStr
  let safety_ratings ← decDefField fields "safety_ratings" []
    (fun v => do decList SafetyRating.deserialize (← decArr v))
  .ok ⟨block_reason, safety_ratings⟩

/-- The `UsageMetadata` struct of `dto_response.rs` (all counters
optional `i32`). -/
structure UsageMetadata where
  prompt_token_count : Option Int
  candidates_token_count : Option Int
  total_token_count : Option Int

/-- Derived deserialization of `UsageMetadata`. -/
def UsageMetadata.deserialize (j : Json) : Except String UsageMetadata := do
  let fields ← decObj j
  let prompt_token_count ← decOptField fields "prompt_token_count" decNum
  let candidates_token_count ← decOptField fields "candidates_token_count" decNum
  let total_token_count ← decOptField fields "total_token_count" decNum
  .ok ⟨prompt_token_count, candidates_token_count, total_token_count⟩

/-- The `Candidate<T>` struct of `dto_response.rs`: required content,
optional finish reason, defaulted safety ratings. -/
structure Candidate (α : Type) where
  content : Content α
  finish_reason : Option String
  safety_ratings : List SafetyRating

/-- Derived serialization of `Candidate<T>` (`finish_reason` skipped when
absent, `safety_ratings` always emitted). -/
def Candidate.serialize (sd : Serde α) (c : Candidate α) : Except String Json :=
  match Content.serialize sd c.content with
  | .error msg => .error msg
  | .ok jc =>
    .ok (.obj ([("content", jc)] ++
      optField "finish_reason" (c.finish_reason.map .str) ++
      [("safety_ratings", .arr (c.safety_ratings.map SafetyRating.serialize))]))

/-- Derived deserialization of `Candidate<T>`: `content` required and
decoded through `Content`'s impl, so any part failure fails the candidate. -/
def Candidate.deserialize (sd : Serde α) (j : Json) : Except String (Candidate α) := do
  let fields ← decObj j
  let content ← decReqField fields "content" (Content.deserialize sd)
  let finish_reason ← decOptField fields "finish_reason" decStr
  let safety_ratings ← decDefField fields "safety_ratings" []
    (fun v => do decList SafetyRating.deserialize (← decArr v))
  .ok ⟨content, finish_reason, safety_ratings⟩

/-- The `GenerateContentResponse<T>` envelope: defaulted candidate list,
optional prompt feedback and usage metadata. -/
structure GenerateContentResponse (α : Type) where
  candidates : List (Candidate α)
  prompt_feedback : Option PromptFeedback
  usage_metadata : Option UsageMetadata

/-- Derived deserialization of `GenerateContentResponse<T>`: `candidates`
defaults to the empty list when missing; every contained part's text is
decoded here, and any single failure fails the whole envelope. -/
def GenerateContentResponse.deserialize (sd : Serde α) (j : Json) :
    Except String (GenerateContentResponse α) := do
  let fields ← decObj j
  let candidates ← decDefField fields "candidates" []
    (fun v => do decList (Candidate.deserialize sd) (← decArr v))
  let prompt_feedback ← decOptField fields "prompt_feedback" PromptFeedback.deserialize
  let usage_metadata ← decOptField fields "usage_metadata" UsageMetadata.deserialize
  .ok ⟨candidates, prompt_feedback, usage_metadata⟩

/-- `GenerateContentResponse::first_candidate`. -/
def GenerateContentResponse.first_candidate (r : GenerateContentResponse α) :
    Option (Candidate α) :=
  r.candidates.head?

/-- `GenerateContentResponse::first_content`. -/
def GenerateContentResponse.first_content (r : GenerateContentResponse α) :
    Option (Content α) :=
  r.first_candidate.map Candidate.content

/-- `GenerateContentResponse::first_text`. -/
def GenerateContentResponse.first_text (r : GenerateContentResponse α) : Option α :=
  r.first_content.bind Content.first_text

/-- The `ResponseMimeType` enum of `dto_request.rs`. -/
inductive ResponseMimeType where
  | TextPlain
  | ApplicationJson
  | TextEnum
deriving DecidableEq

/-- The `BuildError` enum of `dto_request.rs`. -/
inductive BuildError where
  | SchemaRequiredForTypedResponse
deriving DecidableEq

/-- The `GenerationConfig<T>` struct: the immutable snapshot `build`
produces (the compile-time phantom marker has no runtime content and is
not modelled; schema values are the serialized schema documents). -/
structure GenerationConfig where
  stop_sequences : Option (List String)
  response_mime_type : Option ResponseMimeType
  response_schema : Option Json
  response_json_schema : Option Json
  response_modalities : Option (List String)
  candidate_count : Option Int
  max_output_tokens : Option Int
  temperature : Option F32
  top_p : Option F32
  top_k : Option Int
  seed : Option Int
  presence_penalty : Option F32
  frequency_penalty : Option F32
  response_logprobs : Option Bool
  logprobs : Option Int
  enable_enhanced_civic_answers : Option Bool
  speech_config : Option Json
  thinking_config : Option Json
  image_config : Option Json
  media_resolution : Option String

/-- The `GenerationConfigBuilder<T>` struct, carrying the same optional
fields as the snapshot while the fluent chain runs. -/
structure GenerationConfigBuilder where
  stop_sequences : Option (List String)
  response_mime_type : Option ResponseMimeType
  response_schema : Option Json
  response_json_schema : Option Json
  response_modalities : Option (List String)
  candidate_count : Option Int
  max_output_tokens : Option Int
  temperature : Option F32
  top_p : Option F32
  top_k : Option Int
  seed : Option Int
  presence_penalty : Option F32
  frequency_penalty : Option F32
  response_logprobs : Option Bool
  logprobs : Option Int
  enable_enhanced_civic_answers : Option Bool
  speech_config : Option Json
  thinking_config : Option Json
  image_config : Option Json
  media_resolution : Option String

/-- `GenerationConfigBuilder::default` / `::new`: every field unset. -/
def GenerationConfigBuilder.new : GenerationConfigBuilder :=
  ⟨none, none, none, none, none, none, none, none, none, none,
   none, none, none, none, none, none, none, none, none, none⟩

/-- `GenerationConfigBuilder::response_schema::<R>()`: stores the OpenAPI
schema document derived from `R` (passed here already serialized, as
`serde_json::to_value(R::schema())` produces it), clears the JSON-schema
slot, forces the MIME type to `application/json`, and carries every other
field over into the re-typed builder. -/
def GenerationConfigBuilder.withResponseSchema (schema : Json)
    (b : GenerationConfigBuilder) : GenerationConfigBuilder :=
  { b with
    response_schema := some schema
    response_json_schema := none
    response_mime_type := some .ApplicationJson }

/-- `GenerationConfigBuilder::response_json_schema::<R>()`: stores the
JSON-schema document derived from `R` (passed here already serialized, as
`serde_json::to_value(schema_for!(R))` produces it), clears the OpenAPI
slot, forces the MIME type to `application/json`, and carries every other
field over into the re-typed builder. -/
def GenerationConfigBuilder.withResponseJsonSchema (schema : Json)
    (b : GenerationConfigBuilder) : GenerationConfigBuilder :=
  { b with
    response_json_schema := some schema
    response_schema := none
    response_mime_type := some .ApplicationJson }

/-- The configuration snapshot `build` returns on success: every builder
field copied over unchanged. -/
def GenerationConfigBuilder.snapshot (b : GenerationConfigBuilder) : GenerationConfig :=
  ⟨b.stop_sequences, b.response_mime_type, b.response_schema, b.response_json_schema,
   b.response_modalities, b.candidate_count, b.max_output_tokens, b.temperature,
   b.top_p, b.top_k, b.seed, b.presence_penalty, b.frequency_penalty,
   b.response_logprobs, b.logprobs, b.enable_enhanced_civic_answers,
   b.speech_config, b.thinking_config, b.image_config, b.media_resolution⟩

/-- `GenerationConfigBuilder::build` with both schema features compiled
in: `isStringType` is `TypeId::of::<T>() == TypeId::of::<String>()`; a
non-`String` type with neither schema slot populated is rejected with
`SchemaRequiredForTypedResponse`, anything else snapshots the builder. -/
def GenerationConfigBuilder.build (isStringType : Bool)
    (b : GenerationConfigBuilder) : Except BuildError GenerationConfig :=
  if !isStringType && !(b.response_schema.isSome || b.response_json_schema.isSome) then
    .error .SchemaRequiredForTypedResponse
  else
    .ok b.snapshot

/-- One fluent-chain step of `GenerationConfigBuilder`, one constructor
per setter method of `dto_request.rs` (the two schema setters carry the
schema document derived from their type argument). -/
inductive BuilderOp where
  | stopSequences (sequences : List String)
  | addStopSequence (sequence : String)
  | responseSchema (schema : Json)
  | responseJsonSchema (schema : Json)
  | responseModalities (modalities : List String)
  | addResponseModality (modality : String)
  | candidateCount (count : Int)
  | maxOutputTokens (tokens : Int)
  | temperature (temp : F32)
  | topP (p : F32)
  | topK (k : Int)
  | seed (s : Int)
  | presencePenalty (penalty : F32)
  | frequencyPenalty (penalty : F32)
  | responseLogprobs (enabled : Bool)
  | logprobs (count : Int)
  | enableEnhancedCivicAnswers (enabled : Bool)
  | speechConfig (config : Json)
  | thinkingConfig (config : Json)
  | imageConfig (config : Json)
  | mediaResolution (resolution : String)
  | textResponse
  | enumResponse

/-- Run one builder setter, mirroring the corresponding method body
(`get_or_insert_with(Vec::new).push` for the two `add_*` setters,
a plain `Some` overwrite everywhere else). -/
def applyOp (b : GenerationConfigBuilder) : BuilderOp → GenerationConfigBuilder
  | .stopSequences sequences => { b with stop_sequences := some sequences }
  | .addStopSequence sequence =>
    { b with stop_sequences := some ((b.stop_sequences.getD []) ++ [sequence]) }
  | .responseSchema schema => b.withResponseSchema schema
  | .responseJsonSchema schema => b.withResponseJsonSchema schema
  | .responseModalities modalities => { b with response_modalities := some modalities }
  | .addResponseModality modality =>
    { b with response_modalities := some ((b.response_modalities.getD []) ++ [modality]) }
  | .candidateCount count => { b with candidate_count := some count }
  | .maxOutputTokens tokens => { b with max_output_tokens := some tokens }
  | .temperature temp => { b with temperature := some temp }
  | .topP p => { b with top_p := some p }
  | .topK k => { b with top_k := some k }
  | .seed s => { b with seed := some s }
  | .presencePenalty penalty => { b with presence_penalty := some penalty }
  | .frequencyPenalty penalty => { b with frequency_penalty := some penalty }
  | .responseLogprobs enabled => { b with response_logprobs := some enabled }
  | .logprobs count => { b with logprobs := some count }
  | .enableEnhancedCivicAnswers enabled =>
    { b with enable_enhanced_civic_answers := some enabled }
  | .speechConfig config => { b with speech_config := some config }
  | .thinkingConfig config => { b with thinking_config := some config }
  | .imageConfig config => { b with image_config := some config }
  | .mediaResolution resolution => { b with media_resolution := some resolution }
  | .textResponse => { b with response_mime_type := some .TextPlain }
  | .enumResponse => { b with response_mime_type := some .TextEnum }

/-- Run a fluent chain of builder setters from left to right. -/
def applyOps (b : GenerationConfigBuilder) : List BuilderOp → GenerationConfigBuilder
  | [] => b
  | op :: rest => applyOps (applyOp b op) rest

/-- At most one of the two schema slots is populated. -/
def schemaExclusive (b : GenerationConfigBuilder) : Prop :=
  b.response_schema = none ∨ b.response_json_schema = none

/-- The plain-string instantiation `T = String`: `serde_json`'s string
conversions, and `stringEquiv` populated (with the identity, which is
what the unchecked reinterpretation amounts to) because
`TypeId::of::<T>() == TypeId::of::<String>()` holds. -/
def stringSerde : Serde String where
  toStr := fun s => .ok (Json.render (.str s))
  fromStr := fun s => do decStr (← Json.parse s)
  stringEquiv := some (Equiv.refl String)

/-- The unit instantiation `T = ()`: serde serializes Rust's unit as the
JSON `null`. A non-`String` type whose round-trip property is immediate,
used to witness the round-trip theorem. -/
def unitSerde : Serde Unit where
  toStr := fun _ => .ok "null"
  fromStr := fun s =>
    match Json.parse s with
    | .ok .null => .ok ()
    | .ok _ => .error "invalid type: expected null"
    | .error msg => .error msg
  stringEquiv := none

/-- The `TestSchema { name: String, age: u32 }` record of the test
modules of `dto_content.rs` and `dto_response.rs` (the two-field record
type of the end-to-end decoding scenario). -/
structure TestSchema where
  name : String
  age : Nat
deriving DecidableEq

/-- Derived serde serialization of `TestSchema`, fields in declaration
order. -/
def TestSchema.toJson (t : TestSchema) : Json :=
  .obj [("name", .str t.name), ("age", .num t.age)]

/-- Derived serde deserialization of `TestSchema`: both fields required,
`age` must fit in a `u32`. -/
def TestSchema.fromJson (j : Json) : Except String TestSchema := do
  let fields ← decObj j
  let name ← decReqField fields "name" decStr
  let ageVal ← decReqField fields "age" decNum
  if ageVal < 0 || 4294967295 < ageVal then .error "invalid value for u32"
  else .ok ⟨name, ageVal.toNat⟩

/-- The instantiation `T = TestSchema` (a typed, non-`String` response). -/
def testSchemaSerde : Serde TestSchema where
  toStr := fun t => .ok (Json.render t.toJson)
  fromStr := fun s => do TestSchema.fromJson (← Json.parse s)
  stringEquiv := none

/-- The structured example value type of the spec's encoding property, a
record with a string `name` and an integral `value` (an `i32`), with
derived serde instances like the test types of `dto_content.rs`. -/
structure NameValue where
  name : String
  value : Int
deriving DecidableEq

/-- Derived serde serialization of `NameValue`. -/
def NameValue.toJson (nv : NameValue) : Json :=
  .obj [("name", .str nv.name), ("value", .num nv.value)]

/-- Derived serde deserialization of `NameValue`: both fields required,
`value` must fit in an `i32`. -/
def NameValue.fromJson (j : Json) : Except String NameValue := do
  let fields ← decObj j
  let name ← decReqField fields "name" decStr
  let v ← decReqField fields "value" decNum
  if v < -2147483648 || 2147483647 < v then .error "invalid value for i32"
  else .ok ⟨name, v⟩

/-- The instantiation `T = NameValue` (a typed, non-`String` response). -/
def nameValueSerde : Serde NameValue where
  toStr := fun nv => .ok (Json.render nv.toJson)
  fromStr := fun s => do NameValue.fromJson (← Json.parse s)
  stringEquiv := none

/-- A `Part<String>` with no text and only the inline-data slot
populated. -/
def inlinePart : Part String :=
  ⟨none, some ⟨.ImagePng, "QUJD"⟩, none, none, none, none, none, none⟩

/-- C1: for every round-trip-serializable type `T` and value `v`,
deserializing the serialization of `JsonString::new(v)` yields a
`JsonString` whose inner value equals `v` (encode then decode of the
typed text field is the identity). -/
theorem c1_typed_text_round_trip {α : Type} (sd : Serde α) (hrt : sd.RoundTrip) (v : α) :
    (JsonString.serialize sd (JsonString.new v) >>= JsonString.deserialize sd) =
      .ok (JsonString.new v) := by
  match hse : sd.stringEquiv with
  | some e =>
    simp [JsonString.serialize, JsonString.new, JsonString.deserialize, hse,
      Bind.bind, Except.bind]
  | none =>
    have h := hrt v
    match hts : sd.toStr v with
    | .error msg =>
      rw [hts] at h
      simp [Bind.bind, Except.bind] at h
    | .ok text =>
      rw [hts] at h
      simp only [Bind.bind, Except.bind] at h ⊢
      simp [JsonString.serialize, hse, hts, JsonString.deserialize, h, JsonString.new]

/-- Closed witness for C1 at the unit type and its only value. -/
theorem c1_witness :
    (JsonString.serialize unitSerde (JsonString.new ()) >>= JsonString.deserialize unitSerde) =
      .ok (JsonString.new ()) :=
  c1_typed_text_round_trip unitSerde (fun _ => rfl) ()

/-- C2: when `T` is the plain string type, encoding emits the string
itself as a single JSON string (no extra JSON-encoding layer) and
decoding a plain JSON string yields that string unchanged; for every
other `T`, encoding emits the value's JSON serialization re-encoded as
one JSON string, so the structured value with name `test` and value `42`
serializes to the doubly-encoded string literal checked in the last two
conjuncts. -/
theorem c2_plain_passthrough_and_double_encoding {α β : Type}
    (sdS : Serde α) (e : α ≃ String) (hS : sdS.stringEquiv = some e)
    (sdT : Serde β) (hT : sdT.stringEquiv = none) (x : α) (s : String) (v : β) :
    JsonString.serialize sdS (JsonString.new x) = .ok (.str (e x))
    ∧ JsonString.deserialize sdS (.str s) = .ok (JsonString.new (e.symm s))
    ∧ JsonString.serialize sdT (JsonString.new v) = (sdT.toStr v).map Json.str
    ∧ JsonString.serialize stringSerde (JsonString.new "hello") = .ok (.str "hello")
    ∧ JsonString.deserialize stringSerde (.str "hello") = .ok (JsonString.new "hello")
    ∧ JsonString.serialize nameValueSerde (JsonString.new (⟨"test", 42⟩ : NameValue)) =
        .ok (.str "\x7b\"name\":\"test\",\"value\":42\x7d")
    ∧ Json.render (.str "\x7b\"name\":\"test\",\"value\":42\x7d") =
        "\"\x7b\\\"name\\\":\\\"test\\\",\\\"value\\\":42\x7d\"" := by
  refine ⟨?_, ?_, ?_, rfl, rfl, rfl, rfl⟩
  · simp [JsonString.serialize, JsonString.new, hS]
  · simp [JsonString.deserialize, JsonString.new, hS]
  · cases hts : sdT.toStr v <;>
      simp [JsonString.serialize, JsonString.new, hT, hts, Except.map]

/-- Closed witness for C2 at the plain string type (with the identity
reinterpretation) and at the structured `NameValue` example. -/
theorem c2_witness :
    JsonString.serialize stringSerde (JsonString.new "hello") =
        .ok (.str (Equiv.refl String "hello"))
    ∧ JsonString.deserialize stringSerde (.str "plain") =
        .ok (JsonString.new ((Equiv.refl String).symm "plain"))
    ∧ JsonString.serialize nameValueSerde (JsonString.new (⟨"test", 42⟩ : NameValue)) =
        (nameValueSerde.toStr ⟨"test", 42⟩).map Json.str :=
  let h := c2_plain_passthrough_and_double_encoding stringSerde (Equiv.refl String) rfl
    nameValueSerde rfl "hello" "plain" (⟨"test", 42⟩ : NameValue)
  ⟨h.1, h.2.1, h.2.2.1⟩

/-- C3: `build()` fails with `SchemaRequiredForTypedResponse` exactly
when the response type is not `String` and neither schema slot is
populated; in every other case it returns the configuration snapshot,
and for `T = String` it always succeeds with the schema slots carried
over as they are (zero schemas stay zero). -/
theorem c3_build_schema_validation (isStringType : Bool) (b : GenerationConfigBuilder) :
    (b.build isStringType = .error .SchemaRequiredForTypedResponse ↔
      isStringType = false ∧ b.response_schema = none ∧ b.response_json_schema = none)
    ∧ ((isStringType = true ∨ b.response_schema ≠ none ∨ b.response_json_schema ≠ none) →
      b.build isStringType = .ok b.snapshot)
    ∧ b.build true = .ok b.snapshot
    ∧ b.snapshot.response_schema = b.response_schema
    ∧ b.snapshot.response_json_schema = b.response_json_schema := by
  cases isStringType <;>
    cases hrs : b.response_schema <;>
      cases hrj : b.response_json_schema <;>
        simp [GenerationConfigBuilder.build, GenerationConfigBuilder.snapshot, hrs, hrj]

/-- Closed witness for C3: the fresh builder fails for a typed response
and succeeds for the plain-string response. -/
theorem c3_witness :
    GenerationConfigBuilder.new.build false = .error .SchemaRequiredForTypedResponse
    ∧ GenerationConfigBuilder.new.build true = .ok GenerationConfigBuilder.new.snapshot :=
  ⟨(c3_build_schema_validation false GenerationConfigBuilder.new).1.mpr ⟨rfl, rfl, rfl⟩,
   (c3_build_schema_validation true GenerationConfigBuilder.new).2.2.1⟩

/-- C7: the re-typing schema setters touch only the two schema slots and
the response MIME type; every other builder field is carried over
unchanged into the new builder. -/
theorem c7_schema_setters_frame (b : GenerationConfigBuilder) (schema : Json) :
    (b.withResponseSchema schema).stop_sequences = b.stop_sequences
    ∧ (b.withResponseSchema schema).response_modalities = b.response_modalities
    ∧ (b.withResponseSchema schema).candidate_count = b.candidate_count
    ∧ (b.withResponseSchema schema).max_output_tokens = b.max_output_tokens
    ∧ (b.withResponseSchema schema).temperature = b.temperature
    ∧ (b.withResponseSchema schema).top_p = b.top_p
    ∧ (b.withResponseSchema schema).top_k = b.top_k
    ∧ (b.withResponseSchema schema).seed = b.seed
    ∧ (b.withResponseSchema schema).presence_penalty = b.presence_penalty
    ∧ (b.withResponseSchema schema).frequency_penalty = b.frequency_penalty
    ∧ (b.withResponseSchema schema).response_logprobs = b.response_logprobs
    ∧ (b.withResponseSchema schema).logprobs = b.logprobs
    ∧ (b.withResponseSchema schema).enable_enhanced_civic_answers =
        b.enable_enhanced_civic_answers
    ∧ (b.withResponseSchema schema).speech_config = b.speech_config
    ∧ (b.withResponseSchema schema).thinking_config = b.thinking_config
    ∧ (b.withResponseSchema schema).image_config = b.image_config
    ∧ (b.withResponseSchema schema).media_resolution = b.media_resolution
    ∧ (b.withResponseJsonSchema schema).stop_sequences = b.stop_sequences
    ∧ (b.withResponseJsonSchema schema).response_modalities = b.response_modalities
    ∧ (b.withResponseJsonSchema schema).candidate_count = b.candidate_count
    ∧ (b.withResponseJsonSchema schema).max_output_tokens = b.max_output_tokens
    ∧ (b.withResponseJsonSchema schema).temperature = b.temperature
    ∧ (b.withResponseJsonSchema schema).top_p = b.top_p
    ∧ (b.withResponseJsonSchema schema).top_k = b.top_k
    ∧ (b.withResponseJsonSchema schema).seed = b.seed
    ∧ (b.withResponseJsonSchema schema).presence_penalty = b.presence_penalty
    ∧ (b.withResponseJsonSchema schema).frequency_penalty = b.frequency_penalty
    ∧ (b.withResponseJsonSchema schema).response_logprobs = b.response_logprobs
    ∧ (b.withResponseJsonSchema schema).logprobs = b.logprobs
    ∧ (b.withResponseJsonSchema schema).enable_enhanced_civic_answers =
        b.enable_enhanced_civic_answers
    ∧ (b.withResponseJsonSchema schema).speech_config = b.speech_config
    ∧ (b.withResponseJsonSchema schema).thinking_config = b.thinking_config
    ∧ (b.withResponseJsonSchema schema).image_config = b.image_config
    ∧ (b.withResponseJsonSchema schema).media_resolution = b.media_resolution := by
  and_intros <;> rfl

/-- Every single builder setter preserves schema mutual exclusivity. -/
lemma applyOp_schemaExclusive (b : GenerationConfigBuilder) (op : BuilderOp)
    (h : schemaExclusive b) : schemaExclusive (applyOp b op) := by
  cases op <;>
    simp_all [applyOp, schemaExclusive, GenerationConfigBuilder.withResponseSchema,
      GenerationConfigBuilder.withResponseJsonSchema]

/-- Any fluent chain of setters preserves schema mutual exclusivity. -/
lemma applyOps_schemaExclusive (ops : List BuilderOp) (b : GenerationConfigBuilder)
    (h : schemaExclusive b) : schemaExclusive (applyOps b ops) := by
  induction ops generalizing b with
  | nil => exact h
  | cons op rest ih => exact ih _ (applyOp_schemaExclusive b op h)

/-- C4: after any sequence of builder operations starting from the fresh
builder, at most one schema slot is populated; attaching the JSON schema
after the OpenAPI schema leaves the OpenAPI slot empty and vice versa,
and in both cases the response MIME type is `application/json`. -/
theorem c4_schema_mutual_exclusivity (ops : List BuilderOp)
    (b : GenerationConfigBuilder) (s1 s2 : Json) :
    schemaExclusive (applyOps GenerationConfigBuilder.new ops)
    ∧ ((b.withResponseSchema s1).withResponseJsonSchema s2).response_schema = none
    ∧ ((b.withResponseSchema s1).withResponseJsonSchema s2).response_json_schema = some s2
    ∧ ((b.withResponseSchema s1).withResponseJsonSchema s2).response_mime_type =
        some .ApplicationJson
    ∧ ((b.withResponseJsonSchema s2).withResponseSchema s1).response_json_schema = none
    ∧ ((b.withResponseJsonSchema s2).withResponseSchema s1).response_schema = some s1
    ∧ ((b.withResponseJsonSchema s2).withResponseSchema s1).response_mime_type =
        some .ApplicationJson := by
  refine ⟨applyOps_schemaExclusive ops GenerationConfigBuilder.new (Or.inl rfl),
    rfl, rfl, rfl, rfl, rfl, rfl⟩

/-- Sequence decoding fails whenever any one element fails. -/
lemma decList_error_of_mem {β : Type} {dec : Json → Except String β} {j : Json}
    {js : List Json} (hj : j ∈ js) {msg : String} (hdec : dec j = .error msg) :
    ∃ e, decList dec js = .error e := by
  induction js with
  | nil => cases hj
  | cons x xs ih =>
    rcases List.mem_cons.mp hj with rfl | hmem
    · exact ⟨msg, by simp [decList, hdec]⟩
    · cases hx : dec x with
      | error e => exact ⟨e, by simp [decList, hx]⟩
      | ok v =>
        obtain ⟨e, he⟩ := ih hmem
        exact ⟨e, by simp [decList, hx, he]⟩

/-- A part whose text does not decode for `T` fails to deserialize. -/
lemma part_text_decode_error {α : Type} (sd : Serde α) (hne : sd.stringEquiv = none)
    {s msg : String} (hbad : sd.fromStr s = .error msg) :
    Part.deserialize sd (Json.obj [("text", Json.str s)]) = .error msg := by
  simp [Part.deserialize, decObj, decOptField, getField, JsonString.deserialize,
    hne, hbad, Bind.bind, Except.bind]

/-- A content block containing a failing part fails to deserialize. -/
lemma content_part_decode_error {α : Type} (sd : Serde α) {ps : List Json} {p : Json}
    (hp : p ∈ ps) {msg : String} (herr : Part.deserialize sd p = .error msg) :
    ∃ e, Content.deserialize sd (Json.obj [("parts", Json.arr ps)]) = .error e := by
  obtain ⟨e, he⟩ := decList_error_of_mem hp herr
  exact ⟨e, by simp [Content.deserialize, decObj, decOptField, decReqField, getField,
    decArr, he, Bind.bind, Except.bind]⟩

/-- A candidate whose content fails to deserialize fails itself. -/
lemma candidate_content_decode_error {α : Type} (sd : Serde α) {cj : Json} {e : String}
    (herr : Content.deserialize sd cj = .error e) :
    ∃ e2, Candidate.deserialize sd (Json.obj [("content", cj)]) = .error e2 :=
  ⟨e, by simp [Candidate.deserialize, decObj, decReqField, getField, herr,
    Bind.bind, Except.bind]⟩

/-- C5: decoding a `GenerateContentResponse<T>` fails as a whole whenever
the text of any one contained part does not decode for `T` (invalid JSON
or wrong shape): the candidate list containing that part never yields a
partially decoded envelope or a substituted default value. -/
theorem c5_envelope_decode_fail_fast {α : Type} (sd : Serde α)
    (hne : sd.stringEquiv = none) (s msg : String) (hbad : sd.fromStr s = .error msg)
    (ps cs : List Json) (rest : List (String × Json))
    (hp : Json.obj [("text", Json.str s)] ∈ ps)
    (hc : Json.obj [("content", Json.obj [("parts", Json.arr ps)])] ∈ cs) :
    ∃ err, GenerateContentResponse.deserialize sd
      (Json.obj (("candidates", Json.arr cs) :: rest)) = .error err := by
  have h1 := part_text_decode_error sd hne hbad
  obtain ⟨e1, he1⟩ := content_part_decode_error sd hp h1
  obtain ⟨e2, he2⟩ := candidate_content_decode_error sd he1
  obtain ⟨e3, he3⟩ := decList_error_of_mem hc he2
  exact ⟨e3, by simp [GenerateContentResponse.deserialize, decObj, decDefField,
    getField, decArr, he3, Bind.bind, Except.bind]⟩

/-- Closed witness for C5: a payload whose single part's text is not
valid JSON for `TestSchema` fails the whole envelope decode. -/
theorem c5_witness :
    ∃ err, GenerateContentResponse.deserialize testSchemaSerde
      (Json.obj [("candidates", Json.arr [Json.obj [("content",
        Json.obj [("parts", Json.arr [Json.obj [("text", Json.str "not json")]])])]])]) =
      .error err :=
  c5_envelope_decode_fail_fast testSchemaSerde rfl "not json" "unexpected character" rfl
    [Json.obj [("text", Json.str "not json")]]
    [Json.obj [("content", Json.obj [("parts",
      Json.arr [Json.obj [("text", Json.str "not json")]])])]]
    [] (List.mem_singleton.mpr rfl) (List.mem_singleton.mpr rfl)

/-- Keys contributed by one optional field: its name when populated,
nothing when absent. -/
lemma optField_keys (k : String) (o : Option Json) :
    (optField k o).map Prod.fst = if o.isSome then [k] else [] := by
  cases o <;> simp [optField]

/-- Membership in a conditional singleton list. -/
lemma mem_ite_singleton {c : Prop} [Decidable c] (a b : String) :
    (a ∈ if c then [b] else []) ↔ c ∧ a = b := by
  split <;> simp_all

/-- The expected serialization of `inlinePart`. -/
def inlinePartJson : Json :=
  .obj [("inline_data",
    .obj [("mime_type", .str "image/png"), ("data", .str "QUJD")])]

/-- A `Candidate<String>` with an empty model content and finish reason
`STOP`. -/
def stopCandidate : Candidate String := ⟨⟨some .Model, []⟩, some "STOP", []⟩

/-- The expected serialization of `stopCandidate`. -/
def stopCandidateJson : Json :=
  .obj [("content", .obj [("role", .str "model"), ("parts", .arr [])]),
    ("finish_reason", .str "STOP"), ("safety_ratings", .arr [])]

/-- Counterexample to C6 as stated: serializing a part whose inline-data
slot is populated emits the field name `inline_data`, not `inlineData`,
and a candidate's finish reason is emitted as `finish_reason`, not
`finishReason` (the derives of `Part` and `Candidate` carry no
`rename_all`). -/
theorem c6_counterexample :
    Part.serialize stringSerde inlinePart = .ok inlinePartJson
    ∧ inlinePartJson.keys = ["inline_data"]
    ∧ "inlineData" ∉ inlinePartJson.keys
    ∧ Candidate.serialize stringSerde stopCandidate = .ok stopCandidateJson
    ∧ stopCandidateJson.keys = ["content", "finish_reason", "safety_ratings"]
    ∧ "finishReason" ∉ stopCandidateJson.keys :=
  ⟨rfl, rfl, by decide, rfl, rfl, by decide⟩

/-- C6 amended: the field names emitted for a serialized `Part` and for a
`Candidate`'s finish reason keep the Rust snake_case declaration names
(`inline_data`, `function_call`, `function_response`, `file_data`,
`executable_code`, `code_execution_result`, `video_metadata`,
`finish_reason`), each emitted exactly when its slot is populated, and
the lower-camel-case names never appear. -/
theorem c6_snake_case_wire_field_names {α : Type} (sd : Serde α) (p : Part α)
    (c : Candidate α) (j jc : Json) (hp : Part.serialize sd p = .ok j)
    (hc : Candidate.serialize sd c = .ok jc) :
    ("text" ∈ j.keys ↔ p.text.isSome = true)
    ∧ ("inline_data" ∈ j.keys ↔ p.inline_data.isSome = true)
    ∧ ("function_call" ∈ j.keys ↔ p.function_call.isSome = true)
    ∧ ("function_response" ∈ j.keys ↔ p.function_response.isSome = true)
    ∧ ("file_data" ∈ j.keys ↔ p.file_data.isSome = true)
    ∧ ("executable_code" ∈ j.keys ↔ p.executable_code.isSome = true)
    ∧ ("code_execution_result" ∈ j.keys ↔ p.code_execution_result.isSome = true)
    ∧ ("video_metadata" ∈ j.keys ↔ p.video_metadata.isSome = true)
    ∧ "inlineData" ∉ j.keys ∧ "functionCall" ∉ j.keys ∧ "functionResponse" ∉ j.keys
    ∧ "fileData" ∉ j.keys ∧ "executableCode" ∉ j.keys ∧ "codeExecutionResult" ∉ j.keys
    ∧ "videoMetadata" ∉ j.keys
    ∧ ("finish_reason" ∈ jc.keys ↔ c.finish_reason.isSome = true)
    ∧ "finishReason" ∉ jc.keys := by
  obtain ⟨textFields, hjeq, htf⟩ : ∃ tf, j = .obj (tf ++ p.serializeTail) ∧
      tf.map Prod.fst = (if p.text.isSome then ["text"] else []) := by
    cases htext : p.text with
    | none =>
      simp only [Part.serialize, htext, Except.ok.injEq] at hp
      exact ⟨[], by simp [hp.symm], by simp [htext]⟩
    | some js =>
      cases hser : JsonString.serialize sd js with
      | error e => simp [Part.serialize, htext, hser] at hp
      | ok jt =>
        simp only [Part.serialize, htext, hser, Except.ok.injEq] at hp
        exact ⟨[("text", jt)], by simp [hp.symm], by simp [htext]⟩
  obtain ⟨jco, hjceq⟩ : ∃ jco, jc = .obj ([("content", jco)] ++
      optField "finish_reason" (c.finish_reason.map .str) ++
      [("safety_ratings", .arr (c.safety_ratings.map SafetyRating.serialize))]) := by
    cases hcs : Content.serialize sd c.content with
    | error e => simp [Candidate.serialize, hcs] at hc
    | ok jco =>
      simp only [Candidate.serialize, hcs, Except.ok.injEq] at hc
      exact ⟨jco, hc.symm⟩
  subst hjeq
  subst hjceq
  and_intros <;>
    simp [Json.keys, Part.serializeTail, List.map_append, htf, optField_keys,
      List.mem_append, mem_ite_singleton, Option.isSome_map]

/-- Closed witness for C6 amended, at a fully populated part and a
candidate with a finish reason. -/
theorem c6_amended_witness :
    ("text" ∈ inlinePartJson.keys ↔ inlinePart.text.isSome = true)
    ∧ ("inline_data" ∈ inlinePartJson.keys ↔ inlinePart.inline_data.isSome = true)
    ∧ "inlineData" ∉ inlinePartJson.keys
    ∧ ("finish_reason" ∈ stopCandidateJson.keys ↔ stopCandidate.finish_reason.isSome = true)
    ∧ "finishReason" ∉ stopCandidateJson.keys :=
  let h := c6_snake_case_wire_field_names stringSerde inlinePart stopCandidate
    inlinePartJson stopCandidateJson rfl rfl
  ⟨h.1, h.2.1, h.2.2.2.2.2.2.2.2.1, h.2.2.2.2.2.2.2.2.2.2.2.2.2.2.2.1,
   h.2.2.2.2.2.2.2.2.2.2.2.2.2.2.2.2⟩

/-- The end-to-end scenario payload text, exactly as the spec gives it
(camelCase `finishReason` / `safetyRatings` keys included). -/
def aliceScenarioText : String :=
  "\x7b\"candidates\":[\x7b\"content\":\x7b\"role\":\"model\",\"parts\":[\x7b\"text\":\"\x7b\\\"name\\\":\\\"Alice\\\",\\\"age\\\":30\x7d\"\x7d]\x7d,\"finishReason\":\"STOP\",\"safetyRatings\":[]\x7d]\x7d"

/-- The JSON value of `aliceScenarioText`. -/
def aliceScenarioJson : Json :=
  .obj [("candidates", .arr [.obj [
    ("content", .obj [("role", .str "model"),
      ("parts", .arr [.obj [("text", .str "\x7b\"name\":\"Alice\",\"age\":30\x7d")]])]),
    ("finishReason", .str "STOP"),
    ("safetyRatings", .arr [])]])]

/-- The envelope the scenario payload decodes to. The decoder reads the
snake_case names `finish_reason` / `safety_ratings`, so the camelCase
keys of the payload are ignored as unknown fields and those two slots
take their absent-field values; the decode still succeeds and the
decoded text value is `TestSchema` with name `Alice` and age `30`. -/
def aliceScenarioDecoded : GenerateContentResponse TestSchema :=
  ⟨[⟨⟨some .Model,
      [⟨some (JsonString.new ⟨"Alice", 30⟩), none, none, none, none, none, none, none⟩]⟩,
    none, []⟩], none, none⟩

set_option maxRecDepth 8000 in
/-- C8: decoding the spec's scenario payload into an envelope
parameterized by the two-field record type succeeds and yields exactly
one candidate whose first decoded text value has name `Alice` and age
`30`. -/
theorem c8_end_to_end_alice_scenario :
    Json.parse aliceScenarioText = .ok aliceScenarioJson
    ∧ GenerateContentResponse.deserialize testSchemaSerde aliceScenarioJson =
        .ok aliceScenarioDecoded
    ∧ aliceScenarioDecoded.candidates.length = 1
    ∧ aliceScenarioDecoded.first_text = some ⟨"Alice", 30⟩ :=
  ⟨rfl, rfl, rfl, rfl⟩

/-- C9: a response body without the prompt-feedback and usage-metadata
objects decodes successfully, with both slots absent, for any candidate
array that itself decodes. -/
theorem c9_missing_optional_metadata {α : Type} (sd : Serde α) (cs : List Json)
    (cands : List (Candidate α)) (h : decList (Candidate.deserialize sd) cs = .ok cands) :
    GenerateContentResponse.deserialize sd (.obj [("candidates", .arr cs)]) =
      .ok ⟨cands, none, none⟩ := by
  simp [GenerateContentResponse.deserialize, decObj, decDefField, decOptField, getField,
    decArr, h, Bind.bind, Except.bind]

/-- A wire candidate holding one plain text part and nothing else. -/
def plainCandidateJson : Json :=
  .obj [("content", .obj [("parts", .arr [.obj [("text", .str "Plain text response")]])])]

/-- The decoded form of `plainCandidateJson`. -/
def plainCandidate : Candidate String :=
  ⟨⟨none, [⟨some (JsonString.new "Plain text response"),
    none, none, none, none, none, none, none⟩]⟩, none, []⟩

/-- Closed witness for C9 at a concrete single-candidate body. -/
theorem c9_witness :
    GenerateContentResponse.deserialize stringSerde
      (.obj [("candidates", .arr [plainCandidateJson])]) =
      .ok ⟨[plainCandidate], none, none⟩ :=
  c9_missing_optional_metadata stringSerde [plainCandidateJson] [plainCandidate] rfl

/-- C10: `first_text` inspects only the first element at each level: as
soon as the first candidate's content's first part has no text payload,
the result is `None`, whatever the remaining parts and candidates carry. -/
theorem c10_first_text_inspects_only_first {α : Type} (p : Part α) (ps : List (Part α))
    (role : Option Role) (fr : Option String) (sr : List SafetyRating)
    (cs : List (Candidate α)) (pf : Option PromptFeedback) (um : Option UsageMetadata)
    (hp : p.text = none) :
    GenerateContentResponse.first_text
      (⟨⟨⟨role, p :: ps⟩, fr, sr⟩ :: cs, pf, um⟩ : GenerateContentResponse α) = none := by
  simp [GenerateContentResponse.first_text, GenerateContentResponse.first_content,
    GenerateContentResponse.first_candidate, Content.first_text, Content.first_part,
    Part.getText, hp]

/-- A `Part<String>` with no payload at all. -/
def noTextPart : Part String := ⟨none, none, none, none, none, none, none, none⟩

/-- A `Part<String>` carrying text. -/
def laterTextPart : Part String :=
  ⟨some (JsonString.new "later"), none, none, none, none, none, none, none⟩

/-- Closed witness for C10: the first part has no text while both a later
part and a later candidate do, and `first_text` is still `None`. -/
theorem c10_witness :
    GenerateContentResponse.first_text
      (⟨[⟨⟨none, [noTextPart, laterTextPart]⟩, none, []⟩,
         ⟨⟨none, [laterTextPart]⟩, none, []⟩], none, none⟩ :
        GenerateContentResponse String) = none :=
  c10_first_text_inspects_only_first noTextPart [laterTextPart] none none []
    [⟨⟨none, [laterTextPart]⟩, none, []⟩] none none rfl

end Gemini

